import Mathlib

/-!
Verification development for the ReAgent trainer-factory fragment:
`reagent/workflow_utils/transitional.py` and
`ml/rl/training/training_data_page.py`.

The factory functions are embedded as explicit state-passing functions over a
`FactoryState` that records a fresh-identity counter (so that "distinct network
instances" is expressible) and an ordered event trace (so that ordering claims
such as "placement happens before target derivation" and "an error is raised
before/after network construction" are expressible).  External framework
constructors (network modules, trainers) are modelled as records of their
constructor arguments; moving a module to the GPU is modelled as setting a
device field and logging the call, mirroring the in-place semantics of the
framework's `.cuda()`.
-/

/-- Device on which a network module currently lives. -/
inductive Device where
  | cpu
  | gpu
deriving DecidableEq, Repr

/-- `model.rainbow` block of the discrete-action configuration. -/
structure RainbowParameters where
  quantile : Bool
  categorical : Bool
  dueling_architecture : Bool
  double_q_learning : Bool
  num_atoms : Nat
  qmin : Rat
  qmax : Rat
deriving DecidableEq, Repr

/-- `model.training` block of the configuration.  `dropout_rate` embeds the
source's dropout ratio field (a float that is only ever passed through
unchanged, so it is embedded as a rational). -/
structure TrainingParameters where
  layers : List Nat
  activations : List String
  dropout_rate : Rat
  minibatch_size : Nat
  optimizer : String
  learning_rate : Rat
  l2_decay : Rat
deriving DecidableEq, Repr

/-- `model.evaluation` block of the configuration. -/
structure EvaluationParameters where
  calc_cpe_in_training : Bool
deriving DecidableEq, Repr

/-- `model.rl` block (only the discount is ever read by the embedded code). -/
structure RLParameters where
  gamma : Rat
deriving DecidableEq, Repr

/-- `DiscreteActionModelParameters` from `reagent.parameters`. -/
structure DiscreteActionModelParameters where
  actions : List String
  rainbow : RainbowParameters
  training : TrainingParameters
  evaluation : EvaluationParameters
  rl : RLParameters
deriving DecidableEq, Repr

/-- `ContinuousActionModelParameters` from `reagent.parameters`. -/
structure ContinuousActionModelParameters where
  rainbow : RainbowParameters
  training : TrainingParameters
  rl : RLParameters
deriving DecidableEq, Repr

/-- Modelled from the spec: `get_num_output_features` and the
normalization-parameter map live in `reagent.preprocessing.normalization`,
which is not part of this repository fragment.  The spec only ever uses the
map through "the normalization-derived input width", so the map is abstracted
to that width and `get_num_output_features` reads it off. -/
abbrev NormalizationParamMap : Type := Nat

/-- Modelled from the spec: the normalization-derived input width of a
normalization-parameter map (see `NormalizationParamMap`). -/
def get_num_output_features (p : NormalizationParamMap) : Nat := p

/-- Constructor arguments of each external network class, one variant per
class instantiated by `transitional.py`. -/
inductive NetworkArch where
  | quantileDQN (state_dim action_dim num_atoms : Nat)
      (sizes : List Nat) (activations : List String) (dropout_rate : Rat)
  | categoricalDQN (state_dim action_dim num_atoms : Nat) (qmin qmax : Rat)
      (sizes : List Nat) (activations : List String) (dropout_rate : Rat)
      (use_gpu : Bool)
  | duelingQNetwork (layers : List Nat) (activations : List String)
  | fullyConnectedDQN (state_dim action_dim : Nat)
      (sizes : List Nat) (activations : List String) (dropout_rate : Rat)
  | fullyConnectedParametricDQN (state_dim action_dim : Nat)
      (sizes : List Nat) (activations : List String)
  | memoryNetwork (state_dim action_dim num_hiddens num_hidden_layers
      num_gaussians : Nat)
deriving DecidableEq, Repr

/-- A constructed network module: its constructor arguments plus mutable
framework state (device, distributed wrapping), a fresh identity, and, for
target copies, the identity of the network it was derived from. -/
structure Network where
  id : Nat
  arch : NetworkArch
  device : Device
  distributed : Bool
  targetOf : Option Nat
deriving DecidableEq, Repr

/-- Which trainer class a factory run finally instantiated. -/
inductive TrainerKind where
  | qrdqn
  | c51
  | dqn
  | parametricDQN
  | mdnrnn
  | cem
deriving DecidableEq, Repr

/-- One step of observable construction behaviour. -/
inductive Event where
  | constructNetwork (id : Nat) (arch : NetworkArch)
  | cudaCall (id : Nat)
  | getTargetNetwork (source newId : Nat)
  | ddpWrap (id : Nat)
  | constructTrainer (kind : TrainerKind)
deriving DecidableEq, Repr

/-- State threaded through a factory run: fresh-identity counter and the
ordered trace of construction events. -/
structure FactoryState where
  nextId : Nat
  events : List Event
deriving DecidableEq, Repr

/-- The state a factory run starts from. -/
def initState : FactoryState := { nextId := 0, events := [] }

/-- Instantiate an external network class: allocate a fresh identity, log the
construction, and return the module on the CPU, unwrapped. -/
def construct (arch : NetworkArch) (s : FactoryState) :
    Network × FactoryState :=
  ({ id := s.nextId, arch := arch, device := Device.cpu, distributed := false,
     targetOf := none },
   { nextId := s.nextId + 1,
     events := s.events ++ [Event.constructNetwork s.nextId arch] })

/-- `.cuda()` on a module: logged, and the module now lives on the GPU. -/
def cudaNet (n : Network) (s : FactoryState) : Network × FactoryState :=
  ({ n with device := Device.gpu },
   { s with events := s.events ++ [Event.cudaCall n.id] })

/-- `.get_target_network()`: a fresh copy of the module (same constructor
arguments and device) recorded as derived from its source. -/
def targetNet (n : Network) (s : FactoryState) : Network × FactoryState :=
  ({ n with id := s.nextId, targetOf := some n.id },
   { nextId := s.nextId + 1,
     events := s.events ++ [Event.getTargetNetwork n.id s.nextId] })

/-- `.get_distributed_data_parallel_model()`: wrap the module for
multi-device execution. -/
def ddpNet (n : Network) (s : FactoryState) : Network × FactoryState :=
  ({ n with distributed := true },
   { s with events := s.events ++ [Event.ddpWrap n.id] })

/-- Log the instantiation of a trainer class. -/
def logTrainer (k : TrainerKind) (s : FactoryState) : FactoryState :=
  { s with events := s.events ++ [Event.constructTrainer k] }

/-- The trainer object returned by `create_dqn_trainer_from_params`: one
variant per trainer class, carrying the exact constructor arguments the
source passes (the derived hyper-parameter objects are opaque translations of
the configuration, embedded as the configuration itself). -/
inductive DiscreteTrainer where
  | qrdqn (q_network q_network_target : Network)
      (parameters : DiscreteActionModelParameters) (use_gpu : Bool)
      (metrics_to_score : List String)
      (reward_network q_network_cpe q_network_cpe_target : Option Network)
  | c51 (q_network q_network_target : Network)
      (parameters : DiscreteActionModelParameters) (use_gpu : Bool)
      (metrics_to_score : List String)
  | dqn (q_network q_network_target : Network)
      (reward_network : Option Network)
      (parameters : DiscreteActionModelParameters) (use_gpu : Bool)
      (q_network_cpe q_network_cpe_target : Option Network)
      (metrics_to_score : List String)
deriving DecidableEq, Repr

/-- The primary Q-network held by a discrete trainer. -/
def DiscreteTrainer.q_network : DiscreteTrainer → Network
  | .qrdqn q _ _ _ _ _ _ _ => q
  | .c51 q _ _ _ _ => q
  | .dqn q _ _ _ _ _ _ _ => q

/-- The reward network held by a discrete trainer (`C51Trainer` is
constructed without one). -/
def DiscreteTrainer.reward_network : DiscreteTrainer → Option Network
  | .qrdqn _ _ _ _ _ r _ _ => r
  | .c51 _ _ _ _ _ => none
  | .dqn _ _ r _ _ _ _ _ => r

/-- The CPE network held by a discrete trainer (`C51Trainer` is constructed
without one). -/
def DiscreteTrainer.q_network_cpe : DiscreteTrainer → Option Network
  | .qrdqn _ _ _ _ _ _ c _ => c
  | .c51 _ _ _ _ _ => none
  | .dqn _ _ _ _ _ c _ _ => c

/-- The metrics list passed to the trainer constructor. -/
def DiscreteTrainer.metrics_to_score : DiscreteTrainer → List String
  | .qrdqn _ _ _ _ m _ _ _ => m
  | .c51 _ _ _ _ m => m
  | .dqn _ _ _ _ _ _ _ m => m

/-- Embedding of `create_dqn_trainer_from_params` (transitional.py).
`cuda_is_available` stands for the ambient `torch.cuda.is_available()`.
Returns the trainer or the assertion error, together with the final state. -/
def create_dqn_trainer_from_params
    (model : DiscreteActionModelParameters)
    (normalization_parameters : NormalizationParamMap)
    (use_gpu : Bool) (use_all_avail_gpus : Bool)
    (metrics_to_score : Option (List String))
    (cuda_is_available : Bool) (s : FactoryState) :
    Except String DiscreteTrainer × FactoryState :=
  let metrics_to_score := metrics_to_score.getD []
  let (q_network, s) :=
    if model.rainbow.quantile then
      construct (NetworkArch.quantileDQN
        (get_num_output_features normalization_parameters)
        model.actions.length
        model.rainbow.num_atoms
        (model.training.layers.drop 1).dropLast
        model.training.activations.dropLast
        model.training.dropout_rate) s
    else if model.rainbow.categorical then
      construct (NetworkArch.categoricalDQN
        (get_num_output_features normalization_parameters)
        model.actions.length
        model.rainbow.num_atoms
        model.rainbow.qmin
        model.rainbow.qmax
        (model.training.layers.drop 1).dropLast
        model.training.activations.dropLast
        model.training.dropout_rate
        use_gpu) s
    else if model.rainbow.dueling_architecture then
      construct (NetworkArch.duelingQNetwork
        ([get_num_output_features normalization_parameters]
          ++ (model.training.layers.drop 1).dropLast
          ++ [model.actions.length])
        model.training.activations) s
    else
      construct (NetworkArch.fullyConnectedDQN
        (get_num_output_features normalization_parameters)
        model.actions.length
        (model.training.layers.drop 1).dropLast
        model.training.activations.dropLast
        model.training.dropout_rate) s
  let (q_network, s) :=
    if use_gpu && cuda_is_available then cudaNet q_network s
    else (q_network, s)
  let (q_network_target, s) := targetNet q_network s
  let (reward_network, q_network_cpe, q_network_cpe_target, s) :=
    if model.evaluation.calc_cpe_in_training then
      let num_output_nodes := (metrics_to_score.length + 1) * model.actions.length
      let (reward_network, s) :=
        construct (NetworkArch.fullyConnectedDQN
          (get_num_output_features normalization_parameters)
          num_output_nodes
          (model.training.layers.drop 1).dropLast
          model.training.activations.dropLast
          model.training.dropout_rate) s
      let (q_network_cpe, s) :=
        construct (NetworkArch.fullyConnectedDQN
          (get_num_output_features normalization_parameters)
          num_output_nodes
          (model.training.layers.drop 1).dropLast
          model.training.activations.dropLast
          model.training.dropout_rate) s
      let (reward_network, q_network_cpe, s) :=
        if use_gpu && cuda_is_available then
          let (reward_network, s) := cudaNet reward_network s
          let (q_network_cpe, s) := cudaNet q_network_cpe s
          (reward_network, q_network_cpe, s)
        else (reward_network, q_network_cpe, s)
      let (q_network_cpe_target, s) := targetNet q_network_cpe s
      (some reward_network, some q_network_cpe, some q_network_cpe_target, s)
    else (none, none, none, s)
  let (q_network, reward_network, q_network_cpe, s) :=
    if use_all_avail_gpus && !model.rainbow.categorical
        && !model.rainbow.quantile then
      let (q_network, s) := ddpNet q_network s
      let (reward_network, s) :=
        match reward_network with
        | some n => let (n, s) := ddpNet n s; (some n, s)
        | none => (none, s)
      let (q_network_cpe, s) :=
        match q_network_cpe with
        | some n => let (n, s) := ddpNet n s; (some n, s)
        | none => (none, s)
      (q_network, reward_network, q_network_cpe, s)
    else (q_network, reward_network, q_network_cpe, s)
  if model.rainbow.quantile then
    if use_all_avail_gpus then
      (Except.error "use_all_avail_gpus not implemented for distributional RL", s)
    else
      (Except.ok (DiscreteTrainer.qrdqn q_network q_network_target model
        use_gpu metrics_to_score reward_network q_network_cpe
        q_network_cpe_target),
       logTrainer TrainerKind.qrdqn s)
  else if model.rainbow.categorical then
    if use_all_avail_gpus then
      (Except.error "use_all_avail_gpus not implemented for distributional RL", s)
    else
      (Except.ok (DiscreteTrainer.c51 q_network q_network_target model use_gpu
        metrics_to_score),
       logTrainer TrainerKind.c51 s)
  else
    (Except.ok (DiscreteTrainer.dqn q_network q_network_target reward_network
      model use_gpu q_network_cpe q_network_cpe_target metrics_to_score),
     logTrainer TrainerKind.dqn s)

/-- `OptimizerParameters` from `reagent.parameters`. -/
structure OptimizerParameters where
  optimizer : String
  learning_rate : Rat
  l2_decay : Rat
deriving DecidableEq, Repr

/-- `ParametricDQNTrainerParameters` as assembled by
`create_parametric_dqn_trainer_from_params`. -/
structure ParametricDQNTrainerParameters where
  rl : RLParameters
  double_q_learning : Bool
  minibatch_size : Nat
  optimizer : OptimizerParameters
deriving DecidableEq, Repr

/-- The `ParametricDQNTrainer` object with its constructor arguments. -/
structure ParametricDQNTrainer where
  q_network : Network
  q_network_target : Network
  reward_network : Network
  use_gpu : Bool
  parameters : ParametricDQNTrainerParameters
deriving DecidableEq, Repr

/-- Embedding of `create_parametric_dqn_trainer_from_params`
(transitional.py).  Note the source consults no GPU-availability check on
this path: `.cuda()` is called whenever `use_gpu` is set. -/
def create_parametric_dqn_trainer_from_params
    (model : ContinuousActionModelParameters)
    (state_normalization_parameters : NormalizationParamMap)
    (action_normalization_parameters : NormalizationParamMap)
    (use_gpu : Bool) (use_all_avail_gpus : Bool) (s : FactoryState) :
    ParametricDQNTrainer × FactoryState :=
  let (q_network, s) :=
    construct (NetworkArch.fullyConnectedParametricDQN
      (get_num_output_features state_normalization_parameters)
      (get_num_output_features action_normalization_parameters)
      (model.training.layers.drop 1).dropLast
      model.training.activations.dropLast) s
  let (reward_network, s) :=
    construct (NetworkArch.fullyConnectedParametricDQN
      (get_num_output_features state_normalization_parameters)
      (get_num_output_features action_normalization_parameters)
      (model.training.layers.drop 1).dropLast
      model.training.activations.dropLast) s
  let (q_network_target, s) := targetNet q_network s
  let (q_network, q_network_target, reward_network, s) :=
    if use_gpu then
      let (q_network, s) := cudaNet q_network s
      let (q_network_target, s) := cudaNet q_network_target s
      let (reward_network, s) := cudaNet reward_network s
      (q_network, q_network_target, reward_network, s)
    else (q_network, q_network_target, reward_network, s)
  let (q_network, q_network_target, reward_network, s) :=
    if use_all_avail_gpus then
      let (q_network, s) := ddpNet q_network s
      let (q_network_target, s) := ddpNet q_network_target s
      let (reward_network, s) := ddpNet reward_network s
      (q_network, q_network_target, reward_network, s)
    else (q_network, q_network_target, reward_network, s)
  let trainer_parameters : ParametricDQNTrainerParameters :=
    { rl := model.rl,
      double_q_learning := model.rainbow.double_q_learning,
      minibatch_size := model.training.minibatch_size,
      optimizer :=
        { optimizer := model.training.optimizer,
          learning_rate := model.training.learning_rate,
          l2_decay := model.training.l2_decay } }
  ({ q_network := q_network, q_network_target := q_network_target,
     reward_network := reward_network, use_gpu := use_gpu,
     parameters := trainer_parameters },
   logTrainer TrainerKind.parametricDQN s)

/-- `EnvType` from the gym environment wrapper (only the discrete/continuous
distinction is read). -/
inductive EnvType where
  | discreteAction
  | continuousAction
deriving DecidableEq, Repr

/-- The environment descriptor consumed by `get_cem_trainer` and
`create_world_model_trainer`: dimensionalities, action-space type and, for
continuous spaces, the action bounds. -/
structure OpenAIGymEnvironment where
  state_dim : Nat
  action_dim : Nat
  action_type : EnvType
  action_space_high : List Rat
  action_space_low : List Rat
deriving DecidableEq, Repr

/-- `MDNRNNParameters` from `reagent.parameters`. -/
structure MDNRNNParameters where
  hidden_size : Nat
  num_hidden_layers : Nat
  num_gaussians : Nat
  not_terminal_loss_weight : Rat
deriving DecidableEq, Repr

/-- `CEMParameters` from `reagent.parameters`. -/
structure CEMParameters where
  num_world_models : Nat
  mdnrnn : MDNRNNParameters
  cem_num_iterations : Nat
  cem_population_size : Nat
  ensemble_population_size : Nat
  num_elites : Nat
  plan_horizon_length : Nat
  rl : RLParameters
  alpha : Rat
  epsilon : Rat
deriving DecidableEq, Repr

/-- The `MDNRNNTrainer` object with its constructor arguments. -/
structure MDNRNNTrainer where
  mdnrnn : Network
  params : MDNRNNParameters
deriving DecidableEq, Repr

/-- The `CEMPlannerNetwork` object with its constructor arguments. -/
structure CEMPlannerNetwork where
  mem_net_list : List Network
  cem_num_iterations : Nat
  cem_population_size : Nat
  ensemble_population_size : Nat
  num_elites : Nat
  plan_horizon_length : Nat
  state_dim : Nat
  action_dim : Nat
  discrete_action : Bool
  terminal_effective : Bool
  gamma : Rat
  alpha : Rat
  epsilon : Rat
  action_upper_bounds : Option (List Rat)
  action_lower_bounds : Option (List Rat)
deriving DecidableEq, Repr

/-- The `CEMTrainer` object with its constructor arguments. -/
structure CEMTrainer where
  cem_planner_network : CEMPlannerNetwork
  world_model_trainers : List MDNRNNTrainer
  params : CEMParameters
  use_gpu : Bool
deriving DecidableEq, Repr

/-- Embedding of `create_world_model_trainer` (transitional.py). -/
def create_world_model_trainer (env : OpenAIGymEnvironment)
    (mdnrnn_params : MDNRNNParameters) (use_gpu : Bool) (s : FactoryState) :
    MDNRNNTrainer × FactoryState :=
  let (mdnrnn_net, s) :=
    construct (NetworkArch.memoryNetwork env.state_dim env.action_dim
      mdnrnn_params.hidden_size mdnrnn_params.num_hidden_layers
      mdnrnn_params.num_gaussians) s
  let (mdnrnn_net, s) :=
    if use_gpu then cudaNet mdnrnn_net s else (mdnrnn_net, s)
  ({ mdnrnn := mdnrnn_net, params := mdnrnn_params },
   logTrainer TrainerKind.mdnrnn s)

/-- Builds the ensemble of world-model trainers for `get_cem_trainer`, one
per element of the index list (mirroring the source's list comprehension
over `range(num_world_models)`). -/
def buildWorldModelTrainers (env : OpenAIGymEnvironment)
    (mdnrnn_params : MDNRNNParameters) (use_gpu : Bool) :
    List Nat → FactoryState → List MDNRNNTrainer × FactoryState
  | [], s => ([], s)
  | _ :: rest, s =>
    let (t, s) := create_world_model_trainer env mdnrnn_params use_gpu s
    let (ts, s) := buildWorldModelTrainers env mdnrnn_params use_gpu rest s
    (t :: ts, s)

/-- Embedding of `get_cem_trainer` (transitional.py). -/
def get_cem_trainer (env : OpenAIGymEnvironment) (params : CEMParameters)
    (use_gpu : Bool) (s : FactoryState) : CEMTrainer × FactoryState :=
  let num_world_models := params.num_world_models
  let (world_model_trainers, s) :=
    buildWorldModelTrainers env params.mdnrnn use_gpu
      (List.range num_world_models) s
  let world_model_nets := world_model_trainers.map (fun t => t.mdnrnn)
  let discrete_action := env.action_type = EnvType.discreteAction
  let terminal_effective := params.mdnrnn.not_terminal_loss_weight > 0
  let (action_upper_bounds, action_lower_bounds) :
      Option (List Rat) × Option (List Rat) :=
    if discrete_action then (none, none)
    else (some env.action_space_high, some env.action_space_low)
  let cem_planner_network : CEMPlannerNetwork :=
    { mem_net_list := world_model_nets,
      cem_num_iterations := params.cem_num_iterations,
      cem_population_size := params.cem_population_size,
      ensemble_population_size := params.ensemble_population_size,
      num_elites := params.num_elites,
      plan_horizon_length := params.plan_horizon_length,
      state_dim := env.state_dim,
      action_dim := env.action_dim,
      discrete_action := discrete_action,
      terminal_effective := decide terminal_effective,
      gamma := params.rl.gamma,
      alpha := params.alpha,
      epsilon := params.epsilon,
      action_upper_bounds := action_upper_bounds,
      action_lower_bounds := action_lower_bounds }
  ({ cem_planner_network := cem_planner_network,
     world_model_trainers := world_model_trainers,
     params := params, use_gpu := use_gpu },
   logTrainer TrainerKind.cem s)

/-- Embedding of `TrainingDataPage` (training_data_page.py): a pure data
carrier.  Per-example sequences are lists over an abstract element type `a`,
the batch tag `ds` has an abstract type `b`. -/
structure TrainingDataPage (a b : Type) where
  states : List a
  actions : List a
  rewards : List a
  next_states : List a
  next_actions : List a
  possible_next_actions : List a
  reward_timelines : List a
  ds : b
  not_terminals : Option (List a)
deriving DecidableEq, Repr

/-- Embedding of `TrainingDataPage.__init__`: stores every argument
unchanged; `not_terminals` defaults to `none` when omitted.  The source body
performs no validation, so the embedding is a total function. -/
def TrainingDataPage.init (states actions rewards next_states next_actions
    possible_next_actions reward_timelines : List a) (ds : b)
    (not_terminals : Option (List a) := none) : TrainingDataPage a b :=
  { states := states, actions := actions, rewards := rewards,
    next_states := next_states, next_actions := next_actions,
    possible_next_actions := possible_next_actions,
    reward_timelines := reward_timelines, ds := ds,
    not_terminals := not_terminals }

/-- Whether an event is a network construction. -/
def Event.isConstructNetwork : Event → Bool
  | .constructNetwork _ _ => true
  | _ => false

/-- Whether an event is a `.cuda()` call. -/
def Event.isCudaCall : Event → Bool
  | .cudaCall _ => true
  | _ => false

/-- Whether an event is a target-network derivation. -/
def Event.isGetTargetNetwork : Event → Bool
  | .getTargetNetwork _ _ => true
  | _ => false

/-- Whether an event is a distributed-data-parallel wrapping. -/
def Event.isDdpWrap : Event → Bool
  | .ddpWrap _ => true
  | _ => false

/-- Whether an event is a trainer instantiation. -/
def Event.isConstructTrainer : Event → Bool
  | .constructTrainer _ => true
  | _ => false

/-- The constructor arguments of a construction event, if it is one. -/
def constructedArchOf : Event → Option NetworkArch
  | .constructNetwork _ a => some a
  | _ => none

/-- The network-constructor argument records appearing in a trace, in
construction order. -/
def constructedArchs (es : List Event) : List NetworkArch :=
  es.filterMap constructedArchOf

/-- The four discrete Q-network architecture kinds plus the two other
network classes the factory fragment instantiates. -/
inductive ArchKind where
  | quantile
  | categorical
  | dueling
  | fullyConnected
  | fullyConnectedParametric
  | memory
deriving DecidableEq, Repr

/-- The architecture kind of a constructed network. -/
def NetworkArch.kind : NetworkArch → ArchKind
  | .quantileDQN _ _ _ _ _ _ => ArchKind.quantile
  | .categoricalDQN _ _ _ _ _ _ _ _ _ => ArchKind.categorical
  | .duelingQNetwork _ _ => ArchKind.dueling
  | .fullyConnectedDQN _ _ _ _ _ => ArchKind.fullyConnected
  | .fullyConnectedParametricDQN _ _ _ _ => ArchKind.fullyConnectedParametric
  | .memoryNetwork _ _ _ _ _ => ArchKind.memory

/-- The spec's first-match decision procedure over the rainbow flags:
quantile, else categorical, else dueling, else the plain fully-connected
default. -/
def selected_architecture (r : RainbowParameters) : ArchKind :=
  if r.quantile then ArchKind.quantile
  else if r.categorical then ArchKind.categorical
  else if r.dueling_architecture then ArchKind.dueling
  else ArchKind.fullyConnected

/-- The constructor-argument record of the two auxiliary (reward/CPE)
networks: a plain fully-connected network whose output width is
`(M + 1) * A`, with the default branch's middle-layer, activation-truncation
and dropout derivation. -/
def auxNetworkArch (model : DiscreteActionModelParameters)
    (np : NormalizationParamMap) (metrics : List String) : NetworkArch :=
  NetworkArch.fullyConnectedDQN
    (get_num_output_features np)
    ((metrics.length + 1) * model.actions.length)
    (model.training.layers.drop 1).dropLast
    model.training.activations.dropLast
    model.training.dropout_rate

/-- A sample rainbow block with every selection flag off. -/
def sampleRainbow : RainbowParameters :=
  { quantile := false, categorical := false, dueling_architecture := false,
    double_q_learning := true, num_atoms := 51, qmin := 0, qmax := 10 }

/-- A sample training block. -/
def sampleTraining : TrainingParameters :=
  { layers := [10, 128, 64, 2], activations := ["relu", "relu", "linear"],
    dropout_rate := 0, minibatch_size := 32, optimizer := "ADAM",
    learning_rate := 1, l2_decay := 0 }

/-- A sample discrete-action configuration (default architecture, CPE on). -/
def sampleModel : DiscreteActionModelParameters :=
  { actions := ["a", "b"], rainbow := sampleRainbow,
    training := sampleTraining,
    evaluation := { calc_cpe_in_training := true }, rl := { gamma := 1 } }

/-- The sample configuration with the categorical flag set. -/
def sampleModelCategorical : DiscreteActionModelParameters :=
  { sampleModel with rainbow := { sampleRainbow with categorical := true } }

/-- The sample configuration with the quantile flag set. -/
def sampleModelQuantile : DiscreteActionModelParameters :=
  { sampleModel with rainbow := { sampleRainbow with quantile := true } }

/-- A sample continuous-action configuration. -/
def sampleContinuousModel : ContinuousActionModelParameters :=
  { rainbow := sampleRainbow, training := sampleTraining, rl := { gamma := 1 } }

/-- A sample environment descriptor. -/
def sampleEnv : OpenAIGymEnvironment :=
  { state_dim := 4, action_dim := 2, action_type := EnvType.discreteAction,
    action_space_high := [], action_space_low := [] }

/-- A sample world-model parameter block. -/
def sampleMDNRNN : MDNRNNParameters :=
  { hidden_size := 8, num_hidden_layers := 2, num_gaussians := 3,
    not_terminal_loss_weight := 1 }

/-- A rainbow block with the three architecture-selection flags overridden. -/
def RainbowParameters.withFlags (r : RainbowParameters) (q c d : Bool) :
    RainbowParameters :=
  { r with quantile := q, categorical := c, dueling_architecture := d }

/-- Helper: the world-model ensemble built over an index list receives
consecutive fresh network identities starting at the incoming counter, and
advances the counter by the ensemble size. -/
theorem buildWorldModelTrainers_ids (env : OpenAIGymEnvironment)
    (p : MDNRNNParameters) (g : Bool) (l : List Nat) (s : FactoryState) :
    ((buildWorldModelTrainers env p g l s).1.map (fun t => t.mdnrnn.id)
       = List.range' s.nextId l.length)
    ∧ (buildWorldModelTrainers env p g l s).2.nextId = s.nextId + l.length := by
  induction l generalizing s with
  | nil => simp [buildWorldModelTrainers]
  | cons a rest ih =>
    have h1 : (create_world_model_trainer env p g s).1.mdnrnn.id = s.nextId ∧
        (create_world_model_trainer env p g s).2.nextId = s.nextId + 1 := by
      cases g <;>
        simp [create_world_model_trainer, construct, cudaNet, logTrainer]
    have h2 := ih (create_world_model_trainer env p g s).2
    simp only [buildWorldModelTrainers, List.length_cons, List.range'_succ,
      List.map_cons]
    constructor
    · rw [h1.1, h2.1, h1.2]
    · rw [h2.2, h1.2]
      omega

/-- Claim C1 (amended): with `use_all_avail_gpus = true` and the categorical
(or quantile) flag set, `create_dqn_trainer_from_params` raises the assertion
error "use_all_avail_gpus not implemented for distributional RL", constructs
no trainer and applies no multi-device wrapping — it never silently falls
back to single-device construction.  However, the networks themselves are
constructed before the assertion fires (so "constructs no networks" does not
hold; see the counterexample). -/
theorem distributional_multi_gpu_is_rejected_after_network_construction
    (model : DiscreteActionModelParameters) (np : NormalizationParamMap)
    (use_gpu avail : Bool) (metrics : Option (List String))
    (h : model.rainbow.categorical = true ∨ model.rainbow.quantile = true) :
    (create_dqn_trainer_from_params model np use_gpu true metrics avail
        initState).1
      = Except.error "use_all_avail_gpus not implemented for distributional RL"
    ∧ (create_dqn_trainer_from_params model np use_gpu true metrics avail
        initState).2.events.any Event.isConstructTrainer = false
    ∧ (create_dqn_trainer_from_params model np use_gpu true metrics avail
        initState).2.events.any Event.isDdpWrap = false
    ∧ (create_dqn_trainer_from_params model np use_gpu true metrics avail
        initState).2.events.any Event.isConstructNetwork = true := by
  rcases h with h | h
  · cases hq : model.rainbow.quantile <;>
    cases hcpe : model.evaluation.calc_cpe_in_training <;>
    cases use_gpu <;> cases avail <;>
      simp [create_dqn_trainer_from_params, construct, cudaNet, targetNet,
        ddpNet, logTrainer, initState, Event.isConstructTrainer,
        Event.isDdpWrap, Event.isConstructNetwork, h, hq, hcpe]
  · cases hcpe : model.evaluation.calc_cpe_in_training <;>
    cases use_gpu <;> cases avail <;>
      simp [create_dqn_trainer_from_params, construct, cudaNet, targetNet,
        ddpNet, logTrainer, initState, Event.isConstructTrainer,
        Event.isDdpWrap, Event.isConstructNetwork, h, hcpe]

/-- Witness for claim C1's amended theorem at a concrete categorical
configuration. -/
theorem distributional_multi_gpu_is_rejected_witness :
    (create_dqn_trainer_from_params sampleModelCategorical 5 false true none
        false initState).1
      = Except.error "use_all_avail_gpus not implemented for distributional RL"
    ∧ (create_dqn_trainer_from_params sampleModelCategorical 5 false true none
        false initState).2.events.any Event.isConstructTrainer = false
    ∧ (create_dqn_trainer_from_params sampleModelCategorical 5 false true none
        false initState).2.events.any Event.isDdpWrap = false
    ∧ (create_dqn_trainer_from_params sampleModelCategorical 5 false true none
        false initState).2.events.any Event.isConstructNetwork = true :=
  distributional_multi_gpu_is_rejected_after_network_construction
    sampleModelCategorical 5 false false none (Or.inl rfl)

/-- Counterexample to claim C1 as stated: at a concrete categorical
configuration with `use_all_avail_gpus = true` the assertion error is raised,
yet the trace contains network constructions — the claim's "constructs no
networks" is false. -/
theorem distributional_multi_gpu_constructs_networks_before_error :
    (create_dqn_trainer_from_params sampleModelCategorical 5 false true none
        false initState).1
      = Except.error "use_all_avail_gpus not implemented for distributional RL"
    ∧ (create_dqn_trainer_from_params sampleModelCategorical 5 false true none
        false initState).2.events.any Event.isConstructNetwork = true :=
  ⟨rfl, rfl⟩

/-- Claim C2 (amended): in `create_parametric_dqn_trainer_from_params` with
`use_gpu = true`, the target network is derived from the primary *before* GPU
placement; the primary, target and reward networks are then each moved to the
GPU, so all three end on the GPU device and the target is a copy of the
primary. -/
theorem parametric_target_derived_before_uniform_gpu_placement
    (pmodel : ContinuousActionModelParameters)
    (snp anp : NormalizationParamMap) (use_all_avail_gpus : Bool) :
    ((create_parametric_dqn_trainer_from_params pmodel snp anp true
        use_all_avail_gpus initState).2.events.takeWhile
          (fun e => !e.isCudaCall)).any Event.isGetTargetNetwork = true
    ∧ (create_parametric_dqn_trainer_from_params pmodel snp anp true
        use_all_avail_gpus initState).1.q_network.device = Device.gpu
    ∧ (create_parametric_dqn_trainer_from_params pmodel snp anp true
        use_all_avail_gpus initState).1.q_network_target.device = Device.gpu
    ∧ (create_parametric_dqn_trainer_from_params pmodel snp anp true
        use_all_avail_gpus initState).1.reward_network.device = Device.gpu
    ∧ (create_parametric_dqn_trainer_from_params pmodel snp anp true
        use_all_avail_gpus initState).1.q_network_target.targetOf
      = some (create_parametric_dqn_trainer_from_params pmodel snp anp true
          use_all_avail_gpus initState).1.q_network.id := by
  cases use_all_avail_gpus <;>
    simp [create_parametric_dqn_trainer_from_params, construct, cudaNet,
      targetNet, ddpNet, logTrainer, initState, Event.isCudaCall,
      Event.isGetTargetNetwork]

/-- Counterexample to claim C2 as stated: at a concrete input with
`use_gpu = true` the trace contains `.cuda()` calls, but none of them occurs
before the target-network derivation — GPU placement is *not* applied before
the target is derived. -/
theorem parametric_no_gpu_placement_before_target_derivation :
    (create_parametric_dqn_trainer_from_params sampleContinuousModel 5 3 true
        false initState).2.events.any Event.isCudaCall = true
    ∧ ((create_parametric_dqn_trainer_from_params sampleContinuousModel 5 3
        true false initState).2.events.takeWhile
          (fun e => !e.isGetTargetNetwork)).any Event.isCudaCall = false :=
  ⟨rfl, rfl⟩

/-- Claim C3 (amended): only the discrete path guards GPU placement on
availability: with `use_gpu = true` and no GPU available it completes on the
CPU with no `.cuda()` call and no error.  The parametric and world-model
paths consult no availability check at all and call `.cuda()` whenever
`use_gpu = true` — in particular also when no GPU device is available. -/
theorem gpu_availability_guard_only_on_discrete_path
    (model : DiscreteActionModelParameters)
    (np : NormalizationParamMap) (metrics : Option (List String))
    (pmodel : ContinuousActionModelParameters)
    (snp anp : NormalizationParamMap) (use_all2 : Bool)
    (env : OpenAIGymEnvironment) (wp : MDNRNNParameters) :
    (create_dqn_trainer_from_params model np true false metrics false
        initState).2.events.any Event.isCudaCall = false
    ∧ (create_dqn_trainer_from_params model np true false metrics false
        initState).1.toOption.isSome = true
    ∧ (create_parametric_dqn_trainer_from_params pmodel snp anp true use_all2
        initState).2.events.any Event.isCudaCall = true
    ∧ (create_world_model_trainer env wp true initState).2.events.any
        Event.isCudaCall = true := by
  refine ⟨?_, ?_, ?_, ?_⟩
  · cases hq : model.rainbow.quantile <;>
    cases hc : model.rainbow.categorical <;>
    cases hd : model.rainbow.dueling_architecture <;>
    cases hcpe : model.evaluation.calc_cpe_in_training <;>
      simp [create_dqn_trainer_from_params, construct, cudaNet, targetNet,
        ddpNet, logTrainer, initState, Event.isCudaCall, hq, hc, hd, hcpe]
  · cases hq : model.rainbow.quantile <;>
    cases hc : model.rainbow.categorical <;>
    cases hd : model.rainbow.dueling_architecture <;>
    cases hcpe : model.evaluation.calc_cpe_in_training <;>
      simp [create_dqn_trainer_from_params, construct, cudaNet, targetNet,
        ddpNet, logTrainer, initState, Except.toOption, hq, hc, hd, hcpe]
  · cases use_all2 <;>
      simp [create_parametric_dqn_trainer_from_params, construct, cudaNet,
        targetNet, ddpNet, logTrainer, initState, Event.isCudaCall]
  · simp [create_world_model_trainer, construct, cudaNet, logTrainer,
      initState, Event.isCudaCall]

/-- Counterexample to claim C3 as stated: the parametric and world-model
paths attempt GPU placement (a `.cuda()` call appears in the trace) whenever
`use_gpu = true`.  The source consults no availability check on these paths,
so the trace is the same whether or not a GPU device is available — the
claimed silent CPU fallback does not exist there. -/
theorem parametric_and_world_model_paths_attempt_gpu_placement :
    (create_parametric_dqn_trainer_from_params sampleContinuousModel 5 3 true
        false initState).2.events.any Event.isCudaCall = true
    ∧ (create_world_model_trainer sampleEnv sampleMDNRNN true
        initState).2.events.any Event.isCudaCall = true :=
  ⟨rfl, rfl⟩

/-- Claim C4: for every discrete-action configuration exactly one Q-network
is built before the target derivation, its architecture chosen by first-match
order over the co-occurring flags (quantile, else categorical, else dueling,
else the fully-connected default), and the returned trainer's primary
Q-network has exactly that architecture kind. -/
theorem dqn_factory_builds_single_architecture_by_first_match
    (model : DiscreteActionModelParameters) (np : NormalizationParamMap)
    (use_gpu use_all_avail_gpus avail : Bool)
    (metrics : Option (List String)) :
    (((create_dqn_trainer_from_params model np use_gpu use_all_avail_gpus
        metrics avail initState).2.events.takeWhile
          (fun e => !e.isGetTargetNetwork)).filterMap constructedArchOf).map
        NetworkArch.kind = [selected_architecture model.rainbow] ∧
    ((create_dqn_trainer_from_params model np use_gpu false metrics avail
        initState).1.toOption.map (fun t => t.q_network.arch.kind))
      = some (selected_architecture model.rainbow) := by
  cases hq : model.rainbow.quantile <;>
  cases hc : model.rainbow.categorical <;>
  cases hd : model.rainbow.dueling_architecture <;>
  cases hcpe : model.evaluation.calc_cpe_in_training <;>
  cases hug : (use_gpu && avail) <;>
  cases hua : use_all_avail_gpus <;>
    simp [create_dqn_trainer_from_params, construct, cudaNet, targetNet,
      ddpNet, logTrainer, initState, selected_architecture, NetworkArch.kind,
      constructedArchOf, Event.isGetTargetNetwork, hq, hc, hd, hcpe, hug,
      DiscreteTrainer.q_network, Except.toOption]

/-- Claim C5: when `calc_cpe_in_training` is set, the networks constructed
after the primary Q-network are exactly the two auxiliary fully-connected
networks of output width `(M + 1) * A` with the default branch's
middle-layer, activation-truncation and dropout derivation; with the flag
off, none are constructed. -/
theorem cpe_auxiliary_networks_are_fully_connected_with_cpe_width
    (model : DiscreteActionModelParameters) (np : NormalizationParamMap)
    (use_gpu use_all_avail_gpus avail : Bool) (metrics : List String) :
    (constructedArchs (create_dqn_trainer_from_params model np use_gpu
        use_all_avail_gpus (some metrics) avail initState).2.events).drop 1
      = if model.evaluation.calc_cpe_in_training
          then [auxNetworkArch model np metrics, auxNetworkArch model np metrics]
          else [] := by
  cases hq : model.rainbow.quantile <;>
  cases hc : model.rainbow.categorical <;>
  cases hd : model.rainbow.dueling_architecture <;>
  cases hcpe : model.evaluation.calc_cpe_in_training <;>
  cases hug : (use_gpu && avail) <;>
  cases hua : use_all_avail_gpus <;>
    simp [create_dqn_trainer_from_params, construct, cudaNet, targetNet,
      ddpNet, logTrainer, initState, constructedArchs, constructedArchOf,
      auxNetworkArch, hq, hc, hd, hcpe, hug]

/-- Claim C6: the dueling branch builds its network with layer-size sequence
`[input width] ++ middle layers ++ [action count]` and the *untruncated*
activation sequence, while the quantile and default branches pass the
activation sequence with its last element dropped. -/
theorem dueling_branch_layer_sizes_and_untruncated_activations
    (model : DiscreteActionModelParameters) (np : NormalizationParamMap)
    (use_gpu use_all_avail_gpus avail : Bool)
    (metrics : Option (List String)) :
    (constructedArchs (create_dqn_trainer_from_params
        { model with rainbow := model.rainbow.withFlags false false true }
        np use_gpu use_all_avail_gpus metrics avail initState).2.events).head?
      = some (NetworkArch.duelingQNetwork
          ([get_num_output_features np]
            ++ (model.training.layers.drop 1).dropLast
            ++ [model.actions.length])
          model.training.activations)
    ∧ (constructedArchs (create_dqn_trainer_from_params
        { model with rainbow := (model.rainbow.withFlags true
            model.rainbow.categorical model.rainbow.dueling_architecture) }
        np use_gpu use_all_avail_gpus metrics avail initState).2.events).head?
      = some (NetworkArch.quantileDQN (get_num_output_features np)
          model.actions.length model.rainbow.num_atoms
          (model.training.layers.drop 1).dropLast
          model.training.activations.dropLast
          model.training.dropout_rate)
    ∧ (constructedArchs (create_dqn_trainer_from_params
        { model with rainbow := model.rainbow.withFlags false false false }
        np use_gpu use_all_avail_gpus metrics avail initState).2.events).head?
      = some (NetworkArch.fullyConnectedDQN (get_num_output_features np)
          model.actions.length
          (model.training.layers.drop 1).dropLast
          model.training.activations.dropLast
          model.training.dropout_rate) := by
  cases hcpe : model.evaluation.calc_cpe_in_training <;>
  cases hug : (use_gpu && avail) <;>
  cases hua : use_all_avail_gpus <;>
    simp [create_dqn_trainer_from_params, construct, cudaNet, targetNet,
      ddpNet, logTrainer, initState, constructedArchs, constructedArchOf,
      RainbowParameters.withFlags, hcpe, hug]

/-- Claim C7: `get_cem_trainer` with `num_world_models = N` builds exactly
`N` world-model trainers whose `MemoryNetwork` instances have pairwise
distinct identities (no sharing), and a single planner network whose
member-network list is exactly the list of those trainers' networks. -/
theorem cem_trainer_builds_distinct_ensemble_referenced_by_planner
    (env : OpenAIGymEnvironment) (params : CEMParameters) (use_gpu : Bool) :
    (get_cem_trainer env params use_gpu initState).1.world_model_trainers.length
      = params.num_world_models
    ∧ (get_cem_trainer env params use_gpu
        initState).1.cem_planner_network.mem_net_list
      = (get_cem_trainer env params use_gpu
          initState).1.world_model_trainers.map (fun t => t.mdnrnn)
    ∧ ((get_cem_trainer env params use_gpu
          initState).1.world_model_trainers.map
            (fun t => t.mdnrnn.id)).Nodup := by
  have h := buildWorldModelTrainers_ids env params.mdnrnn use_gpu
    (List.range params.num_world_models) initState
  refine ⟨?_, ?_, ?_⟩
  · have := congrArg List.length h.1
    simpa [get_cem_trainer] using this
  · simp [get_cem_trainer]
  · have := h.1
    simp only [get_cem_trainer]
    rw [this]
    exact List.nodup_range' _ _

/-- Claim C8: auxiliary reward/CPE construction is gated only by the
`calc_cpe_in_training` flag (the trace holds three network constructions with
it and one without it, in every architecture branch), yet the `C51Trainer`
is constructed without reward or CPE networks while the quantile and default
trainers receive them exactly when the flag is set. -/
theorem cpe_gating_independent_of_branch_but_c51_takes_no_aux_networks
    (model : DiscreteActionModelParameters) (np : NormalizationParamMap)
    (use_gpu use_all_avail_gpus avail : Bool)
    (metrics : Option (List String)) :
    (constructedArchs (create_dqn_trainer_from_params model np use_gpu
        use_all_avail_gpus metrics avail initState).2.events).length
      = (if model.evaluation.calc_cpe_in_training then 3 else 1)
    ∧ ((create_dqn_trainer_from_params model np use_gpu false metrics avail
          initState).1.toOption.map
        (fun t => (t.reward_network.isSome, t.q_network_cpe.isSome)))
      = some (if !model.rainbow.quantile && model.rainbow.categorical
          then (false, false)
          else (model.evaluation.calc_cpe_in_training,
                model.evaluation.calc_cpe_in_training)) := by
  cases hq : model.rainbow.quantile <;>
  cases hc : model.rainbow.categorical <;>
  cases hd : model.rainbow.dueling_architecture <;>
  cases hcpe : model.evaluation.calc_cpe_in_training <;>
  cases hug : (use_gpu && avail) <;>
  cases hua : use_all_avail_gpus <;>
    simp [create_dqn_trainer_from_params, construct, cudaNet, targetNet,
      ddpNet, logTrainer, initState, constructedArchs, constructedArchOf,
      DiscreteTrainer.reward_network, DiscreteTrainer.q_network_cpe,
      Except.toOption, hq, hc, hd, hcpe, hug]

/-- Claim C9: `TrainingDataPage` construction performs no validation and
never fails — for arbitrary argument values, including per-example sequences
of unequal lengths, every field is stored and exposed unchanged, and
`not_terminals` defaults to `none` when omitted. -/
theorem training_data_page_stores_all_fields_unchanged {a b : Type}
    (sts acts rws nsts nacts pnacts rtl : List a) (d : b)
    (nt : Option (List a)) :
    (TrainingDataPage.init sts acts rws nsts nacts pnacts rtl d nt).states = sts ∧
    (TrainingDataPage.init sts acts rws nsts nacts pnacts rtl d nt).actions = acts ∧
    (TrainingDataPage.init sts acts rws nsts nacts pnacts rtl d nt).rewards = rws ∧
    (TrainingDataPage.init sts acts rws nsts nacts pnacts rtl d nt).next_states = nsts ∧
    (TrainingDataPage.init sts acts rws nsts nacts pnacts rtl d nt).next_actions = nacts ∧
    (TrainingDataPage.init sts acts rws nsts nacts pnacts rtl d nt).possible_next_actions = pnacts ∧
    (TrainingDataPage.init sts acts rws nsts nacts pnacts rtl d nt).reward_timelines = rtl ∧
    (TrainingDataPage.init sts acts rws nsts nacts pnacts rtl d nt).ds = d ∧
    (TrainingDataPage.init sts acts rws nsts nacts pnacts rtl d nt).not_terminals = nt ∧
    (TrainingDataPage.init sts acts rws nsts nacts pnacts rtl d).not_terminals = none :=
  ⟨rfl, rfl, rfl, rfl, rfl, rfl, rfl, rfl, rfl, rfl⟩

/-- Claim C10: with `metrics_to_score = none` (and CPE enabled) the argument
is replaced by the empty list: both auxiliary networks get output width
exactly the action count (`M = 0`), and the constructed trainer receives the
empty metrics list rather than `none`. -/
theorem none_metrics_replaced_by_empty_list
    (model : DiscreteActionModelParameters)
    (np : NormalizationParamMap) (use_gpu avail : Bool) :
    (constructedArchs (create_dqn_trainer_from_params
        { model with evaluation := { calc_cpe_in_training := true } }
        np use_gpu false none avail initState).2.events).drop 1
      = [NetworkArch.fullyConnectedDQN (get_num_output_features np)
          model.actions.length
          (model.training.layers.drop 1).dropLast
          model.training.activations.dropLast
          model.training.dropout_rate,
         NetworkArch.fullyConnectedDQN (get_num_output_features np)
          model.actions.length
          (model.training.layers.drop 1).dropLast
          model.training.activations.dropLast
          model.training.dropout_rate]
    ∧ ((create_dqn_trainer_from_params
        { model with evaluation := { calc_cpe_in_training := true } }
        np use_gpu false none avail initState).1.toOption.map
          DiscreteTrainer.metrics_to_score) = some [] := by
  cases hq : model.rainbow.quantile <;>
  cases hc : model.rainbow.categorical <;>
  cases hd : model.rainbow.dueling_architecture <;>
  cases hug : (use_gpu && avail) <;>
    simp [create_dqn_trainer_from_params, construct, cudaNet, targetNet,
      ddpNet, logTrainer, initState, constructedArchs, constructedArchOf,
      DiscreteTrainer.metrics_to_score, Except.toOption, hq, hc, hd, hug]
